import Mathlib

/-!
Shallow embedding of the FFmpeg conversion HTTP service.

The repository holds two variants of the same Express server:
the main server file (src/unnamed/part_000) and a secondary copy
(src/packages/index.js).  Each route handler becomes a pure Lean
function from the data it inspects (the upload descriptor, the child
process termination event, the filename token, the existence of a file
on disk) to the HTTP response it sends and the filesystem effects it
performs or schedules.  Definitions carrying no `packages` prefix embed
the main server; definitions prefixed with `packages` embed the points
where the secondary copy differs.
-/

namespace FFmpegServer

/-- JSON values appearing in response bodies: strings, booleans and
arrays of strings. -/
inductive JVal where
  | s (v : String)
  | b (v : Bool)
  | arr (vs : List String)
deriving DecidableEq, Repr

/-- An HTTP response: either a JSON body with a status code, or a binary
file download of the file at a given path (res.download). -/
inductive Response where
  | json (status : Nat) (fields : List (String × JVal))
  | fileDownload (path : String)
deriving DecidableEq, Repr

/-- Lookup of a JSON field by key in a response body. -/
def Response.getField? : Response → String → Option JVal
  | .json _ fs, k => (fs.find? (fun f => f.1 = k)).map (fun f => f.2)
  | .fileDownload _, _ => none

/-- Whether a response body carries a field with the given key. -/
def Response.hasField (r : Response) (k : String) : Bool :=
  (r.getField? k).isSome

/-- The HTTP status of a response; a file download reports 200. -/
def Response.statusCode : Response → Nat
  | .json st _ => st
  | .fileDownload _ => 200

/-- Filesystem effects a handler performs or schedules: an immediate
fs.unlink, or an unlink scheduled by setTimeout after a delay in
milliseconds. -/
inductive FsEffect where
  | unlink (p : String)
  | unlinkDelayed (p : String) (delayMs : Nat)
deriving DecidableEq, Repr

/-- Termination of the spawned child process, as the server observes it:
either the close event, carrying the exit code (none encodes the JS
null code) and the text accumulated from the diagnostic stream, or the
error event carrying the spawn error message. -/
inductive ProcEvent where
  | close (code : Option Int) (output : String)
  | error (errMsg : String)
deriving DecidableEq, Repr

/-- JS string interpolation of the exit code: null prints as "null". -/
def jsCodeStr : Option Int → String
  | none => "null"
  | some c => toString c

/-- Worker for jsSplitChar: walks the character list, cutting a piece at
every separator. -/
def splitCharAux (sep : Char) : List Char → List Char → List String
  | [], acc => [String.mk acc.reverse]
  | c :: cs, acc =>
      if c = sep then String.mk acc.reverse :: splitCharAux sep cs []
      else splitCharAux sep cs (c :: acc)

/-- JS s.split(sep) for the one-character separators the server uses
(newline and slash): always at least one piece, empty pieces kept. -/
def jsSplitChar (s : String) (sep : Char) : List String :=
  splitCharAux sep s.toList []

/-- Joining a list of strings with a separator (Array.prototype.join). -/
def joinWith (sep : String) : List String → String
  | [] => ""
  | [x] => x
  | x :: xs => x ++ sep ++ joinWith sep xs

/-- Whether needle occurs contiguously in the haystack. -/
def listIsInfixOf (needle : List Char) : List Char → Bool
  | [] => needle.isEmpty
  | c :: cs => needle.isPrefixOf (c :: cs) || listIsInfixOf needle cs

/-- JS s.includes(sub): sub occurs contiguously in s. -/
def jsIncludes (s sub : String) : Bool :=
  listIsInfixOf sub.toList s.toList

/-- Whether the string s starts with the string pre. -/
def strStartsWith (s pre : String) : Bool :=
  pre.toList.isPrefixOf s.toList

/-- The upload descriptor multer attaches to the request. -/
structure UploadedFile where
  path : String
  originalname : String
  size : Nat
deriving DecidableEq, Repr

/-- A subprocess invocation: tool name and argument list. -/
structure SpawnCmd where
  tool : String
  args : List String
deriving DecidableEq, Repr

/-- The spawn performed by testFFmpeg: spawn of ffmpeg with -version. -/
def testFFmpegCmd : SpawnCmd := ⟨"ffmpeg", ["-version"]⟩

/-- The spawn performed by the /ffmpeg-info route: ffmpeg -version. -/
def ffmpegInfoCmd : SpawnCmd := ⟨"ffmpeg", ["-version"]⟩

/-- Close handler of GET /ffmpeg-info in the main server: on exit code 0
a 200 body built from the accumulated output (first line as version, the
line containing "configuration:" or "Not found", the first 5 lines
containing "lib"); otherwise a 500 error body. -/
def ffmpegInfoClose (code : Option Int) (output : String) : Response :=
  if code = some 0 then
    let lines := jsSplitChar output '\n'
    .json 200
      [("success", .b true),
       ("version", .s (lines.headD "")),
       ("configuration",
        .s ((lines.find? (fun l => jsIncludes l "configuration:")).getD "Not found")),
       ("libraries", .arr ((lines.filter (fun l => jsIncludes l "lib")).take 5))]
  else
    .json 500 [("success", .b false), ("error", .s "Could not get FFmpeg info")]

/-- Error handler of GET /ffmpeg-info in the main server: a 500 body
carrying the spawn error message. -/
def ffmpegInfoError (errMsg : String) : Response :=
  .json 500 [("success", .b false), ("error", .s errMsg)]

/-- Response of GET /ffmpeg-info in the main server to a process event.
Both the close and the error event are handled. -/
def ffmpegInfoRespond : ProcEvent → Option Response
  | .close code output => some (ffmpegInfoClose code output)
  | .error msg => some (ffmpegInfoError msg)

/-- Response of GET /ffmpeg-info in the secondary copy: only the close
event has a listener (success body carries version and fullInfo); a
spawn error event reaches no handler, so no response is produced. -/
def packagesFfmpegInfoRespond : ProcEvent → Option Response
  | .close code output =>
      if code = some 0 then
        some (.json 200
          [("success", .b true),
           ("version", .s ((jsSplitChar output '\n').headD "")),
           ("fullInfo", .s output)])
      else
        some (.json 500 [("success", .b false), ("error", .s "Could not get FFmpeg info")])
  | .error _ => none

/-- The generated output path of POST /convert, derived from the current
timestamp (Date.now). -/
def convertOutputPath (now : Nat) : String :=
  "uploads/converted_" ++ toString now ++ ".mp4"

/-- The ffmpeg argument list built by POST /convert. -/
def ffmpegConvertArgs (inputPath outputPath : String) : List String :=
  ["-i", inputPath,
   "-c:v", "libx264",
   "-c:a", "aac",
   "-preset", "fast",
   "-crf", "23",
   "-y",
   outputPath]

/-- Entry of POST /convert: with no uploaded file it returns 400 at once
and never builds a spawn command; with a file present it spawns ffmpeg
on the upload path and the timestamp-derived output path. -/
def convertEntry (file : Option UploadedFile) (now : Nat) : Sum Response SpawnCmd :=
  match file with
  | none => .inl (.json 400 [("error", .s "No file uploaded")])
  | some f => .inr ⟨"ffmpeg", ffmpegConvertArgs f.path (convertOutputPath now)⟩

/-- path.basename for the posix paths the server builds: the last
"/"-separated component. -/
def basename (p : String) : String :=
  (jsSplitChar p '/').getLastD ""

/-- progress.split of newline, slice of the last n, rejoined: the
tail-truncation applied to the diagnostic text. -/
def lastLines (n : Nat) (s : String) : String :=
  let ls := jsSplitChar s '\n'
  joinWith "\n" (ls.drop (ls.length - n))

/-- Close handler of POST /convert in the main server: unlink the input
file, then answer 200 with outputFile and downloadUrl on exit code 0,
or 500 with the exit code and the last 5 lines of the accumulated
diagnostic text otherwise. -/
def convertClose (inputPath outputPath : String) (code : Option Int) (progress : String) :
    List FsEffect × Response :=
  ([.unlink inputPath],
   if code = some 0 then
     .json 200
       [("success", .b true),
        ("message", .s "Video converted successfully"),
        ("outputFile", .s (basename outputPath)),
        ("downloadUrl", .s ("/download/" ++ basename outputPath))]
   else
     .json 500
       [("success", .b false),
        ("error", .s ("Conversion failed with exit code " ++ jsCodeStr code)),
        ("details", .s (lastLines 5 progress))])

/-- Error handler of POST /convert (both variants): unlink the input
file and answer 500 with the spawn error message as details. -/
def convertError (inputPath : String) (errMsg : String) : List FsEffect × Response :=
  ([.unlink inputPath],
   .json 500
     [("success", .b false),
      ("error", .s "FFmpeg process error"),
      ("details", .s errMsg)])

/-- Response of POST /convert in the main server to a process
termination event. -/
def convertRespond (inputPath outputPath : String) : ProcEvent → List FsEffect × Response
  | .close code progress => convertClose inputPath outputPath code progress
  | .error msg => convertError inputPath msg

/-- Close handler of POST /convert in the secondary copy: identical to
the main server except that the failure details field carries the whole
accumulated diagnostic text, untruncated. -/
def packagesConvertClose (inputPath outputPath : String) (code : Option Int) (progress : String) :
    List FsEffect × Response :=
  ([.unlink inputPath],
   if code = some 0 then
     .json 200
       [("success", .b true),
        ("message", .s "Video converted successfully"),
        ("outputFile", .s (basename outputPath)),
        ("downloadUrl", .s ("/download/" ++ basename outputPath))]
   else
     .json 500
       [("success", .b false),
        ("error", .s ("Conversion failed with exit code " ++ jsCodeStr code)),
        ("details", .s progress)])

/-- One normalization step of posix path.join: empty and dot segments
are dropped, a dotdot segment pops the previous one, any other segment
is pushed. -/
def normStep (stack : List String) (seg : String) : List String :=
  if seg = "" ∨ seg = "." then stack
  else if seg = ".." then stack.dropLast
  else stack ++ [seg]

/-- posix path.join of the given parts, the first being an absolute
directory: pieces are joined with "/" and the result is normalized. -/
def pathJoinAbs (parts : List String) : String :=
  let segs := jsSplitChar (joinWith "/" parts) '/'
  "/" ++ joinWith "/" (segs.foldl normStep [])

/-- The path GET /download/:filename serves: path.join of the server
directory, the uploads directory and the raw filename token. -/
def downloadFilePath (dirname filename : String) : String :=
  pathJoinAbs [dirname, "uploads", filename]

/-- Outcome of the download route: the response sent and the filesystem
effects performed or scheduled. -/
structure DlResult where
  response : Response
  effects : List FsEffect
deriving DecidableEq, Repr

/-- GET /download/:filename: if the joined path does not exist, a 404
JSON body and no effect; otherwise the file is streamed, and only when
the transfer callback reports no error is an unlink of the path
scheduled 1000 ms later (a transfer error is logged only). -/
def downloadHandler (dirname filename : String) (fileExists : Bool)
    (transferErr : Option String) : DlResult :=
  let filePath := downloadFilePath dirname filename
  if fileExists = false then
    ⟨.json 404 [("error", .s "File not found")], []⟩
  else
    ⟨.fileDownload filePath,
     match transferErr with
     | some _ => []
     | none => [.unlinkDelayed filePath 1000]⟩

/-- Applying a filesystem effect to the set of files on disk: both the
immediate and the delayed unlink remove the path once they run. -/
def applyEffect (fsFiles : List String) : FsEffect → List String
  | .unlink p => fsFiles.filter (fun q => q ≠ p)
  | .unlinkDelayed p _ => fsFiles.filter (fun q => q ≠ p)

/-- One full fetch of the download route against a disk state: the
existence check is evaluated on the state, and the resulting effects
are applied to it. -/
def fetchDownload (fsFiles : List String) (dirname filename : String)
    (transferErr : Option String) : DlResult × List String :=
  let r := downloadHandler dirname filename
    (fsFiles.contains (downloadFilePath dirname filename)) transferErr
  (r, r.effects.foldl applyEffect fsFiles)

/-- Claim C1: once a conversion enters processing, the input temporary
file is unlinked exactly once after the child process terminates, on the
success path, on every nonzero-exit path and on the spawn-error path,
in both server variants. -/
theorem input_file_deleted_exactly_once (inputPath outputPath progress : String)
    (code : Option Int) (ev : ProcEvent) :
    (convertRespond inputPath outputPath ev).1 = [FsEffect.unlink inputPath] ∧
    ((convertRespond inputPath outputPath ev).1.count (FsEffect.unlink inputPath) = 1) ∧
    (packagesConvertClose inputPath outputPath code progress).1 = [FsEffect.unlink inputPath] := by
  refine ⟨?_, ?_, rfl⟩
  · cases ev <;> rfl
  · cases ev <;> simp [convertRespond, convertClose, convertError]

/-- Claim C2 counterexample: in the secondary copy of the server, a
failing conversion that accumulated six lines of diagnostics answers
with a details field holding all six lines, so the details text is not
bounded to the last 5 lines of the stream. -/
theorem packages_details_unbounded :
    (packagesConvertClose "uploads/in" "uploads/converted_1.mp4" (some 1)
        "e1\ne2\ne3\ne4\ne5\ne6").2.getField? "details"
      = some (.s "e1\ne2\ne3\ne4\ne5\ne6") ∧
    (jsSplitChar "e1\ne2\ne3\ne4\ne5\ne6" '\n').length = 6 := by
  decide

/-- Claim C2 amended: in the main server, the details field of a
nonzero-exit failure response is exactly the join of the last 5 lines of
the accumulated diagnostic stream, hence built from at most 5 lines;
the secondary copy returns the stream untruncated. -/
theorem details_last_five_lines (inputPath outputPath progress : String)
    (code : Option Int) (h : ¬ code = some 0) :
    (convertClose inputPath outputPath code progress).2.getField? "details"
        = some (.s (lastLines 5 progress)) ∧
    ((jsSplitChar progress '\n').drop ((jsSplitChar progress '\n').length - 5)).length ≤ 5 := by
  constructor
  · simp [convertClose, Response.getField?, h]
  · simp [List.length_drop]
    omega

/-- Claim C2 witness for the amended theorem, at a six-line diagnostic
stream. -/
theorem details_last_five_lines_witness :
    (¬ (some 1 : Option Int) = some 0) ∧
    ((convertClose "uploads/in" "uploads/converted_1.mp4" (some 1)
        "e1\ne2\ne3\ne4\ne5\ne6").2.getField? "details"
        = some (.s (lastLines 5 "e1\ne2\ne3\ne4\ne5\ne6")) ∧
     ((jsSplitChar "e1\ne2\ne3\ne4\ne5\ne6" '\n').drop
        ((jsSplitChar "e1\ne2\ne3\ne4\ne5\ne6" '\n').length - 5)).length ≤ 5) :=
  ⟨by decide,
   details_last_five_lines "uploads/in" "uploads/converted_1.mp4"
     "e1\ne2\ne3\ne4\ne5\ne6" (some 1) (by decide)⟩

/-- Claim C3: the conversion response carries the outputFile and
downloadUrl fields exactly when the child exited with code 0; the
nonzero-exit response and the spawn-error response carry no downloadUrl,
in both server variants. -/
theorem output_referenced_iff_exit_zero (inputPath outputPath progress errMsg : String)
    (code : Option Int) :
    ((convertClose inputPath outputPath code progress).2.hasField "downloadUrl" = true
        ↔ code = some 0) ∧
    ((convertClose inputPath outputPath code progress).2.hasField "outputFile" = true
        ↔ code = some 0) ∧
    (convertError inputPath errMsg).2.hasField "downloadUrl" = false ∧
    ((packagesConvertClose inputPath outputPath code progress).2.hasField "downloadUrl" = true
        ↔ code = some 0) := by
  by_cases h : code = some 0 <;>
    simp [convertClose, convertError, packagesConvertClose,
      Response.hasField, Response.getField?, h]

/-- Claim C4: a successful conversion returns a downloadUrl naming the
output basename; fetching that name once, when the file is on disk,
streams the joined path and schedules its unlink 1000 ms after an
error-free transfer, and a second fetch of the same name then answers
404 File not found. -/
theorem download_once_then_not_found (inputPath outputPath progress dirname : String)
    (fsFiles : List String)
    (h : fsFiles.contains (downloadFilePath dirname (basename outputPath)) = true) :
    (convertClose inputPath outputPath (some 0) progress).2.getField? "downloadUrl"
        = some (.s ("/download/" ++ basename outputPath)) ∧
    (fetchDownload fsFiles dirname (basename outputPath) none).1.response
        = .fileDownload (downloadFilePath dirname (basename outputPath)) ∧
    (fetchDownload fsFiles dirname (basename outputPath) none).1.effects
        = [FsEffect.unlinkDelayed (downloadFilePath dirname (basename outputPath)) 1000] ∧
    (fetchDownload ((fetchDownload fsFiles dirname (basename outputPath) none).2)
        dirname (basename outputPath) none).1.response
        = .json 404 [("error", .s "File not found")] := by
  have hm : downloadFilePath dirname (basename outputPath) ∈ fsFiles := by
    simpa using h
  refine ⟨?_, ?_, ?_, ?_⟩
  · simp [convertClose, Response.getField?]
  · simp [fetchDownload, downloadHandler, hm]
  · simp [fetchDownload, downloadHandler, hm]
  · simp [fetchDownload, downloadHandler, applyEffect, hm]

/-- Claim C4 witness, at a conversion output converted_5.mp4 present on
the disk of a server rooted at /srv/app. -/
theorem download_once_then_not_found_witness :
    (["/srv/app/uploads/converted_5.mp4"].contains
        (downloadFilePath "/srv/app" (basename "uploads/converted_5.mp4")) = true) ∧
    ((convertClose "uploads/in" "uploads/converted_5.mp4" (some 0) "").2.getField? "downloadUrl"
        = some (.s ("/download/" ++ basename "uploads/converted_5.mp4")) ∧
     (fetchDownload ["/srv/app/uploads/converted_5.mp4"] "/srv/app"
        (basename "uploads/converted_5.mp4") none).1.response
        = .fileDownload (downloadFilePath "/srv/app" (basename "uploads/converted_5.mp4")) ∧
     (fetchDownload ["/srv/app/uploads/converted_5.mp4"] "/srv/app"
        (basename "uploads/converted_5.mp4") none).1.effects
        = [FsEffect.unlinkDelayed
            (downloadFilePath "/srv/app" (basename "uploads/converted_5.mp4")) 1000] ∧
     (fetchDownload
        ((fetchDownload ["/srv/app/uploads/converted_5.mp4"] "/srv/app"
           (basename "uploads/converted_5.mp4") none).2)
        "/srv/app" (basename "uploads/converted_5.mp4") none).1.response
        = .json 404 [("error", .s "File not found")]) :=
  ⟨by decide,
   download_once_then_not_found "uploads/in" "uploads/converted_5.mp4" "" "/srv/app"
     ["/srv/app/uploads/converted_5.mp4"] (by decide)⟩

/-- Claim C5 counterexample: the secondary copy of the server installs
no error-event listener on the -version probe, so a spawn failure is
answered by no response at all rather than a 500 body, and its success
body carries no configuration field. -/
theorem packages_ffmpeg_info_divergence :
    packagesFfmpegInfoRespond (.error "spawn ffmpeg ENOENT") = none ∧
    ((packagesFfmpegInfoRespond
        (.close (some 0) "ffmpeg version 6.0\nconfiguration: --x\nlibavutil 58")).map
      (fun r => r.hasField "configuration")) = some false := by
  decide

/-- Claim C5 amended: in the main server, GET /ffmpeg-info answers 200
with success, version, configuration and libraries fields when the
probe exits 0, a 500 body with success false and an error message on
any other exit code, and a 500 body carrying the spawn error message
when the spawn fails. -/
theorem ffmpeg_info_contract (output errMsg : String) (code : Option Int)
    (h : ¬ code = some 0) :
    (ffmpegInfoClose (some 0) output).statusCode = 200 ∧
    (ffmpegInfoClose (some 0) output).getField? "success" = some (.b true) ∧
    (ffmpegInfoClose (some 0) output).hasField "version" = true ∧
    (ffmpegInfoClose (some 0) output).hasField "configuration" = true ∧
    (ffmpegInfoClose (some 0) output).hasField "libraries" = true ∧
    ffmpegInfoRespond (.close code output)
      = some (.json 500 [("success", .b false), ("error", .s "Could not get FFmpeg info")]) ∧
    ffmpegInfoRespond (.error errMsg)
      = some (.json 500 [("success", .b false), ("error", .s errMsg)]) := by
  refine ⟨?_, ?_, ?_, ?_, ?_, ?_, rfl⟩ <;>
    simp [ffmpegInfoRespond, ffmpegInfoClose, Response.hasField, Response.getField?,
      Response.statusCode, h]

/-- Claim C5 witness for the amended theorem, at exit code 1. -/
theorem ffmpeg_info_contract_witness :
    (¬ (some 1 : Option Int) = some 0) ∧
    ((ffmpegInfoClose (some 0) "v").statusCode = 200 ∧
     (ffmpegInfoClose (some 0) "v").getField? "success" = some (.b true) ∧
     (ffmpegInfoClose (some 0) "v").hasField "version" = true ∧
     (ffmpegInfoClose (some 0) "v").hasField "configuration" = true ∧
     (ffmpegInfoClose (some 0) "v").hasField "libraries" = true ∧
     ffmpegInfoRespond (.close (some 1) "v")
        = some (.json 500 [("success", .b false), ("error", .s "Could not get FFmpeg info")]) ∧
     ffmpegInfoRespond (.error "spawn ffmpeg ENOENT")
        = some (.json 500 [("success", .b false), ("error", .s "spawn ffmpeg ENOENT")])) :=
  ⟨by decide, ffmpeg_info_contract "v" "spawn ffmpeg ENOENT" (some 1) (by decide)⟩

/-- Claim C6: a POST /convert request with no uploaded file is answered
400 with an error descriptor, and no spawn command is ever built for
it. -/
theorem missing_upload_rejected_without_spawn (now : Nat) :
    convertEntry none now = .inl (.json 400 [("error", .s "No file uploaded")]) ∧
    ∀ cmd : SpawnCmd, convertEntry none now ≠ .inr cmd :=
  ⟨rfl, fun _ h => Sum.noConfusion h⟩

/-- Claim C7: with an upload present, the conversion spawns ffmpeg with
exactly the fixed argument list (input path, libx264 video, aac audio,
fast preset, crf 23, overwrite flag, output path), and both the startup
probe and the info endpoint spawn ffmpeg with the single argument
-version. -/
theorem spawn_argument_lists (f : UploadedFile) (now : Nat) :
    convertEntry (some f) now
      = .inr ⟨"ffmpeg",
          ["-i", f.path, "-c:v", "libx264", "-c:a", "aac", "-preset", "fast",
           "-crf", "23", "-y", convertOutputPath now]⟩ ∧
    testFFmpegCmd = ⟨"ffmpeg", ["-version"]⟩ ∧
    ffmpegInfoCmd = ⟨"ffmpeg", ["-version"]⟩ :=
  ⟨rfl, rfl, rfl⟩

/-- Claim C8: the download route serves exactly the join of the server
directory, uploads and the raw token, gated only by the existence
check; the traversal token ../../etc/passwd resolves to /srv/etc/passwd,
which lies outside the uploads directory of a server rooted at
/srv/app. -/
theorem download_path_unsanitized (dirname filename : String) (terr : Option String) :
    (downloadHandler dirname filename true terr).response
        = .fileDownload (downloadFilePath dirname filename) ∧
    downloadFilePath "/srv/app" "../../etc/passwd" = "/srv/etc/passwd" ∧
    strStartsWith (downloadFilePath "/srv/app" "../../etc/passwd") "/srv/app/uploads/"
        = false := by
  refine ⟨?_, by decide, by decide⟩
  cases terr <;> rfl

/-- Claim C9: a download request whose resolved file is absent is
answered 404 with the body error File not found, and no filesystem
effect is performed or scheduled. -/
theorem download_missing_not_found (dirname filename : String) (terr : Option String) :
    downloadHandler dirname filename false terr
      = ⟨.json 404 [("error", .s "File not found")], []⟩ :=
  rfl

/-- Claim C10: when the transfer callback reports an error, no unlink is
scheduled and the disk state is unchanged; the 1000 ms delayed unlink is
scheduled only on the error-free branch. -/
theorem transfer_error_keeps_file (fsFiles : List String) (dirname filename errMsg : String) :
    (downloadHandler dirname filename true (some errMsg)).effects = [] ∧
    (downloadHandler dirname filename true none).effects
      = [FsEffect.unlinkDelayed (downloadFilePath dirname filename) 1000] ∧
    (fetchDownload fsFiles dirname filename (some errMsg)).2 = fsFiles := by
  refine ⟨rfl, rfl, ?_⟩
  by_cases hm : downloadFilePath dirname filename ∈ fsFiles <;>
    simp [fetchDownload, downloadHandler, hm]

end FFmpegServer
